import Mathlib

/-
  Verification of `src/utils/sf_cortex_agent_ops.py`.

  Shallow embedding: Python values that can occur in describe-reply rows,
  JSON documents and REST payloads are modelled by the inductive `JVal`;
  Python dictionaries by association lists; fallible Python code by
  `Except PyErr`.  `json.loads` is an external library function, so the
  embedded functions are parametric in a decoder `loads : String → Option JVal`
  (`none` models `json.JSONDecodeError`).
-/

namespace SfAgentOps

/-- JSON-like Python value (None / bool / int / str / list / dict). -/
inductive JVal where
  | null
  | bool (b : Bool)
  | num (n : Int)
  | str (s : String)
  | arr (xs : List JVal)
  | obj (fields : List (String × JVal))

/-- A Python dictionary with string keys, as produced by parsing a JSON object. -/
abbrev Dict := List (String × JVal)

/-- Python truthiness of a `JVal` (`if value:`). -/
def JVal.truthy : JVal → Bool
  | .null => false
  | .bool b => b
  | .num n => n != 0
  | .str s => s ≠ ""
  | .arr xs => !xs.isEmpty
  | .obj fs => !fs.isEmpty

/-- Python exceptions that the embedded fragments can raise. -/
inductive PyErr where
  | typeError
  | attributeError
  | valueError (msg : String)
  | httpError (status : Nat)
deriving DecidableEq, Repr

/-- `str.lower()` (the identifiers in play are ASCII). -/
def pyLower (s : String) : String := String.mk (s.toList.map Char.toLower)

/-- `d.get(k)`: first binding of `k` (keys of parsed JSON objects are unique). -/
def dictGet (d : Dict) (k : String) : Option JVal :=
  (d.find? (fun p => p.1 = k)).map (fun p => p.2)

/-- `k in d`. -/
def dictHas (d : Dict) (k : String) : Bool := (d.find? (fun p => p.1 = k)).isSome

/-- `d[k] = v` for a key known to be absent: Python dicts append in insertion order. -/
def dictInsert (d : Dict) (k : String) (v : JVal) : Dict := d ++ [(k, v)]

/-- Python `a or b` on optional strings (`None` and `""` are falsy). -/
def pyOrStr (a b : Option String) : Option String :=
  match a with
  | some s => if s = "" then b else some s
  | none => b

/-- Python truthiness of an optional string. -/
def truthyStr : Option String → Bool
  | some s => s ≠ ""
  | none => false

/-- One row of a `DESCRIBE AGENT` reply.  The source only ever reads the
`property`, `value` and `agent_spec` keys of a row; `property`, when present,
is a property-name string. -/
structure Row where
  property : Option String
  value : Option JVal
  agent_spec : Option JVal

/-- The body of the `for row in describe_results:` loop of `parse_create_body`
(lines 251-276): `some r` when the iteration returns with `r`, `none` when it
falls through to the next row.  The legacy `property`/`value` check comes
first; within the same row the `agent_spec` check runs only if the legacy
check did not return. -/
def agentSpecCheck (loads : String → Option JVal) (row : Row) :
    Option (Except PyErr (Option JVal)) :=
  match row.agent_spec with
  | none => none
  | some v =>
    if v.truthy then
      match v with
      | .str s =>
        match loads s with
        | some j => some (.ok (some j))
        | none => some (.ok none)
      | .obj fs => some (.ok (some (.obj fs)))
      | _ => none
    else none

/-- See `agentSpecCheck`; this is the whole loop body for one row.  In the
legacy branch `json.loads` is applied to the raw value, so a truthy non-string
value raises `TypeError` (only `json.JSONDecodeError` is caught). -/
def rowStep (loads : String → Option JVal) (row : Row) :
    Option (Except PyErr (Option JVal)) :=
  let property_name := pyLower (row.property.getD "")
  if property_name = "create_body" ∨ property_name = "definition" then
    let value := row.value.getD (.str "")
    if value.truthy then
      match value with
      | .str s =>
        match loads s with
        | some j => some (.ok (some j))
        | none => some (.ok none)
      | _ => some (.error .typeError)
    else agentSpecCheck loads row
  else agentSpecCheck loads row

/-- `parse_create_body` (lines 246-278): scan the rows in order, first
returning row wins, `None` when no row returns. -/
def parse_create_body (loads : String → Option JVal) :
    List Row → Except PyErr (Option JVal)
  | [] => .ok none
  | row :: rest =>
    match rowStep loads row with
    | some r => r
    | none => parse_create_body loads rest

/-- A small concrete JSON decoder used to instantiate the parametric `loads`
in counterexamples and witnesses. -/
def demoLoads : String → Option JVal := fun s =>
  if s = "1" then some (.num 1)
  else if s = "2" then some (.num 2)
  else if s = "null" then some .null
  else none

/-- `host.lower()` followed by `host.replace("_", "-")` (lines 205-207 and
381-383); the replaced pattern is a single character, so the composition is a
character map. -/
def normalizeHost (h : String) : String :=
  String.mk ((pyLower h).toList.map (fun c => if c = '_' then '-' else c))

/-- Result of `get_rest_api_config`. -/
structure RestCfg where
  host : String
  token : String
deriving DecidableEq, Repr

/-- The environment variables read by `get_rest_api_config`
(`none` models an unset variable). -/
structure RestEnv where
  host : Option String
  token : Option String
  account : Option String
deriving DecidableEq, Repr

/-- Error message of `get_rest_api_config` when neither host nor account is available. -/
def msgHostOrAccount : String :=
  "SNOWFLAKE_HOST or SNOWFLAKE_ACCOUNT must be set (via environment variable or --host/--account argument)"

/-- Error message of `get_rest_api_config` when no PAT token is available. -/
def msgPatToken : String :=
  "SNOWFLAKE_PAT_TOKEN must be set (via environment variable or --pat-token argument)"

/-- `get_rest_api_config` (lines 184-215): resolve host, token and account as
argument-first-then-environment; derive the host from the account when absent;
normalize the host; require a token. -/
def get_rest_api_config (host token account : Option String) (env : RestEnv) :
    Except PyErr RestCfg :=
  let host := pyOrStr host env.host
  let token := pyOrStr token env.token
  let account := pyOrStr account env.account
  match (if truthyStr host then host.getD "" |> some else
          if truthyStr account then some (account.getD "" ++ ".snowflakecomputing.com")
          else none) with
  | none => .error (.valueError msgHostOrAccount)
  | some h =>
    let h := normalizeHost h
    if truthyStr token then .ok ⟨h, token.getD ""⟩
    else .error (.valueError msgPatToken)

/-- An HTTP response as observed through the `requests` library. -/
structure HttpResp where
  status : Nat
  text : String
deriving DecidableEq, Repr

/-- `response.raise_for_status()`: raises `requests.HTTPError` exactly for
client/server error statuses (400-599). -/
def raise_for_status (r : HttpResp) : Option PyErr :=
  if 400 ≤ r.status ∧ r.status < 600 then some (.httpError r.status) else none

/-- The response-body handling at the end of `create_agent_via_rest`
(lines 449-458): empty body is a synthetic success, non-JSON body is wrapped
with a raw-text preview. -/
def parseRestResponse (loads : String → Option JVal) (r : HttpResp) : JVal :=
  if r.text.trim = "" then
    .obj [("status", .str "success"),
          ("message", .str "Agent operation completed (empty response)")]
  else
    match loads r.text with
    | some j => j
    | none =>
      .obj [("status", .str "success"), ("message", .str "Operation completed"),
            ("raw_response", .str (r.text.take 500))]

/-- A REST call issued by `create_agent_via_rest`, with its JSON payload. -/
inductive Call where
  | post (url : String) (payload : Dict)
  | put (url : String) (payload : Dict)

/-- Result of the embedded `create_agent_via_rest`: the calls issued in order,
the returned value or raised exception, and the final value of the caller's
`create_body` dictionary (the source copies the dictionary before embedding
the agent name, and the name assignment targets only the copy, so the
embedding threads the caller's dictionary through unchanged). -/
structure CreateCallResult where
  calls : List Call
  outcome : Except PyErr JVal
  callerBody : Dict

/-- `create_agent_via_rest` (lines 356-458).  The network is modelled by the
two responses the backend would give to the POST and to the PUT; the PUT
response is consulted only if the PUT is actually issued. -/
def create_agent_via_rest (loads : String → Option JVal)
    (host _token database schema agent_name : String) (create_body : Dict)
    (replace : Bool) (_role : Option String) (postResp putResp : HttpResp) :
    CreateCallResult :=
  let host := normalizeHost host
  let post_url :=
    "https://" ++ host ++ "/api/v2/databases/" ++ database ++ "/schemas/" ++
      schema ++ "/agents"
  let create_body_with_name :=
    if dictHas create_body "name" then create_body
    else dictInsert create_body "name" (.str agent_name)
  let postCall := Call.post post_url create_body_with_name
  if postResp.status = 200 ∨ postResp.status = 201 then
    ⟨[postCall], .ok (parseRestResponse loads postResp), create_body⟩
  else if postResp.status = 409 ∧ replace then
    let put_url := post_url ++ "/" ++ agent_name
    let putCall := Call.put put_url create_body
    if putResp.status = 200 ∨ putResp.status = 201 then
      ⟨[postCall, putCall], .ok (parseRestResponse loads putResp), create_body⟩
    else
      match raise_for_status putResp with
      | some e => ⟨[postCall, putCall], .error e, create_body⟩
      | none => ⟨[postCall, putCall], .ok (parseRestResponse loads putResp), create_body⟩
  else if postResp.status = 409 then
    match raise_for_status postResp with
    | some e => ⟨[postCall], .error e, create_body⟩
    | none => ⟨[postCall], .ok (parseRestResponse loads postResp), create_body⟩
  else
    match raise_for_status postResp with
    | some e => ⟨[postCall], .error e, create_body⟩
    | none => ⟨[postCall], .ok (parseRestResponse loads postResp), create_body⟩

/-- `extract_create_body` error message for a null `create_body`. -/
def msgNullCreateBody : String :=
  "Export artifact does not contain create_body. Agent may not support this format."

/-- `extract_create_body` error message for missing coordinates. -/
def msgMissingCoords : String :=
  "Database, schema, and agent name must be provided either in the config file or via command-line arguments (--database, --schema, --name)"

/-- `metadata.get(k)` restricted to the string-valued metadata fields written
by this tool's own export path. -/
def metaGetStr (m : Dict) (k : String) : Option String :=
  match dictGet m k with
  | some (.str s) => some s
  | _ => none

/-- Shared tail of `extract_create_body` (lines 491-497): require all three
coordinates, then return them with the body. -/
def finishExtract (database schema agent_name : Option String) (cb : JVal) :
    Except PyErr (String × String × String × JVal) :=
  if truthyStr database ∧ truthyStr schema ∧ truthyStr agent_name then
    .ok (database.getD "", schema.getD "", agent_name.getD "", cb)
  else .error (.valueError msgMissingCoords)

/-- `extract_create_body` (lines 467-497): a document with both a
`create_body` and a `metadata` key is an export artifact (its `create_body`
must be non-null and its metadata seeds the coordinates, overridden by
explicit arguments); any other document is a raw body. -/
def extract_create_body (config : Dict)
    (database schema agent_name : Option String) :
    Except PyErr (String × String × String × JVal) :=
  if dictHas config "create_body" ∧ dictHas config "metadata" then
    match (dictGet config "create_body").getD .null with
    | .null => .error (.valueError msgNullCreateBody)
    | cb =>
      match (dictGet config "metadata").getD .null with
      | .obj m =>
        finishExtract (pyOrStr database (metaGetStr m "database"))
          (pyOrStr schema (metaGetStr m "schema"))
          (pyOrStr agent_name (metaGetStr m "agent_name")) cb
      | _ => .error .attributeError
  else finishExtract database schema agent_name (.obj config)

/-- The hint printed by `import_agent` when creation conflicts without `--replace`. -/
def msgHintReplace : String := "Hint: Use --replace flag to update the existing agent"

/-- Observable outcome of `import_agent`: the process exit status, the REST
calls issued, and the error-stream messages the model tracks. -/
structure ImportOutcome where
  exit : Nat
  calls : List Call
  errs : List String

/-- `import_agent` (lines 500-574) from the point where the configuration
document has been loaded: resolve body and coordinates (fatal on
`ValueError`), honour `dry_run` before any network access, build the REST
configuration (fatal on `ValueError`), then create or update via REST; an
`HTTPError` from a 409-without-replace produces the replace hint; any error
exits non-zero. -/
def import_agent (loads : String → Option JVal) (config : Dict)
    (database schema agent_name : Option String) (dry_run replace : Bool)
    (host pat_token account : Option String) (env : RestEnv)
    (role : Option String) (postResp putResp : HttpResp) : ImportOutcome :=
  match extract_create_body config database schema agent_name with
  | .error (.valueError m) => ⟨1, [], [m]⟩
  | .error _ => ⟨1, [], []⟩
  | .ok (db, sch, nm, cb) =>
    if dry_run then ⟨0, [], []⟩
    else
      match get_rest_api_config host pat_token account env with
      | .error (.valueError m) => ⟨1, [], [m]⟩
      | .error _ => ⟨1, [], []⟩
      | .ok api =>
        match cb with
        | .obj body =>
          let r := create_agent_via_rest loads api.host api.token db sch nm
            body replace role postResp putResp
          match r.outcome with
          | .ok _ => ⟨0, r.calls, []⟩
          | .error (.httpError s) =>
            if ¬replace ∧ s = 409 then ⟨1, r.calls, [msgHintReplace]⟩
            else ⟨1, r.calls, []⟩
          | .error _ => ⟨1, r.calls, []⟩
        | _ => ⟨1, [], []⟩

/-- The environment variables read by `get_snowflake_connection`. -/
structure SqlEnv where
  account : Option String
  user : Option String
  password : Option String
  warehouse : Option String
  role : Option String
  private_key_path : Option String
  passphrase : Option String
deriving DecidableEq, Repr

/-- Which credential the connection parameters carry. -/
inductive AuthMethod where
  | password (pw : String)
  | keyPair (path : String) (passphrase : Option String)
deriving DecidableEq, Repr

/-- The parameter set handed to `snowflake.connector.connect`; producing it
is the last step before the connection attempt. -/
structure ConnParams where
  account : String
  user : String
  role : String
  warehouse : Option String
  auth : AuthMethod
deriving DecidableEq, Repr

/-- `get_snowflake_connection` error message when no credential is configured. -/
def msgAuthNotConfigured : String :=
  "Authentication not configured.\nRECOMMENDED: Use private key authentication with --private-key-path or set SNOWFLAKE_PRIVATE_KEY_PATH.\nAlternative: Use --password or set SNOWFLAKE_PASSWORD (may experience connection issues)."

/-- Missing-parameter fragment for the account. -/
def msgMissingAccount : String := "account (--account or SNOWFLAKE_ACCOUNT)"

/-- Missing-parameter fragment for the user. -/
def msgMissingUser : String := "user (--user or SNOWFLAKE_USER)"

/-- `get_snowflake_connection` (lines 112-181): resolve every parameter as
argument-first-then-environment, require account and user, then pick password
authentication if a password is present, else key-pair authentication if a
key path is present, else fail.  Reading the key file itself is an external
filesystem effect; the embedding records the chosen path and passphrase. -/
def get_snowflake_connection
    (account user password warehouse role private_key_path : Option String)
    (env : SqlEnv) : Except PyErr ConnParams :=
  let account := pyOrStr account env.account
  let user := pyOrStr user env.user
  let password := pyOrStr password env.password
  let warehouse := pyOrStr warehouse env.warehouse
  let role := pyOrStr role (some (env.role.getD "ACCOUNTADMIN"))
  let missing :=
    (if truthyStr account then [] else [msgMissingAccount]) ++
      (if truthyStr user then [] else [msgMissingUser])
  if missing.isEmpty then
    let private_key_path := pyOrStr private_key_path env.private_key_path
    if truthyStr password then
      .ok ⟨account.getD "", user.getD "", role.getD "",
        (if truthyStr warehouse then warehouse else none),
        .password (password.getD "")⟩
    else if truthyStr private_key_path then
      .ok ⟨account.getD "", user.getD "", role.getD "",
        (if truthyStr warehouse then warehouse else none),
        .keyPair (private_key_path.getD "")
          (if truthyStr env.passphrase then env.passphrase else none)⟩
    else .error (.valueError msgAuthNotConfigured)
  else
    .error (.valueError
      ("Required parameters not set: " ++ String.intercalate ", " missing))

/-- The export artifact assembled by `export_agent` (lines 321-331). -/
structure ExportData where
  database : String
  schema : String
  agent_name : String
  exported_by : String
  tool_version : String
  describe_results : List Row
  create_body : Option JVal

/-- Assemble the export artifact for one agent: the raw describe rows are kept
verbatim and `create_body` is whatever `parse_create_body` found (an exception
from the parse propagates to the surrounding handler). -/
def buildExportData (loads : String → Option JVal)
    (database schema agent_name user_name : String) (rows : List Row) :
    Except PyErr ExportData :=
  match parse_create_body loads rows with
  | .error e => .error e
  | .ok cb => .ok ⟨database, schema, agent_name, user_name, "0.3.0", rows, cb⟩

/-- Outcome of single-agent `export_agent` after the connection is up. -/
inductive ExportOutcome where
  | exit1
  | written (data : ExportData)

/-- `export_agent` (lines 281-349) from the describe call on: an exception or
an empty reply is fatal (`sys.exit(1)`); otherwise the artifact is written. -/
def export_agent_result (loads : String → Option JVal)
    (database schema agent_name user_name : String)
    (describe : Except PyErr (List Row)) : ExportOutcome :=
  match describe with
  | .error _ => .exit1
  | .ok rows =>
    if rows.isEmpty then .exit1
    else
      match buildExportData loads database schema agent_name user_name rows with
      | .error _ => .exit1
      | .ok d => .written d

/-- What the backend and the filesystem do for one agent of a bulk export:
the describe statement either raises or returns rows, and the artifact write
either fails at `open`, fails during `json.dump`, or completes. -/
inductive DescribeRes where
  | raise
  | rows (rs : List Row)

/-- See `DescribeRes`. -/
inductive WriteRes where
  | openFail
  | dumpFail
  | ok
deriving DecidableEq, Repr

/-- One discovered agent of `export_all_agents` together with the behaviour
of its describe call and of its artifact write. -/
structure AgentCase where
  database : String
  schema : String
  agent_name : String
  describe : DescribeRes
  write : WriteRes

/-- Output filename `<database>.<schema>.<name>.json` (line 693). -/
def caseFileName (c : AgentCase) : String :=
  c.database ++ "." ++ c.schema ++ "." ++ c.agent_name ++ ".json"

/-- State of an artifact file on disk: `open(.., "w")` creates/truncates the
file immediately, so a failure inside `json.dump` leaves an incomplete file. -/
inductive FileState where
  | incomplete
  | complete
deriving DecidableEq, Repr

/-- The per-batch counters of `export_all_agents`. -/
structure Tally where
  success_count : Nat
  error_count : Nat
deriving DecidableEq, Repr

/-- The body of the per-agent loop of `export_all_agents` (lines 687-727):
returns whether the agent counted as a success, and the file event (name and
final state) if its output file was created.  A raising describe, a raising
parse, or a failing `open` is caught before the file exists; an empty reply
is counted as an error with no exception; a failure during `json.dump` is
caught after the file was created. -/
def runCase (loads : String → Option JVal) (c : AgentCase) :
    Bool × Option (String × FileState) :=
  match c.describe with
  | .raise => (false, none)
  | .rows rs =>
    if rs.isEmpty then (false, none)
    else
      match parse_create_body loads rs with
      | .error _ => (false, none)
      | .ok _ =>
        match c.write with
        | .openFail => (false, none)
        | .dumpFail => (false, some (caseFileName c, .incomplete))
        | .ok => (true, some (caseFileName c, .complete))

/-- The whole per-agent loop of `export_all_agents`: every case is processed
(each iteration's exception handling keeps the loop going), successes and
errors are counted, and the file events accumulate in processing order. -/
def export_all_loop (loads : String → Option JVal) :
    List AgentCase → Tally × List (String × FileState)
  | [] => (⟨0, 0⟩, [])
  | c :: rest =>
    let step := runCase loads c
    let acc := export_all_loop loads rest
    (⟨(if step.1 then 1 else 0) + acc.1.success_count,
      (if step.1 then 0 else 1) + acc.1.error_count⟩,
     step.2.toList ++ acc.2)

/-- An agent of a bulk export fails exactly when its loop iteration counts it
as an error. -/
def caseFails (loads : String → Option JVal) (c : AgentCase) : Bool :=
  !(runCase loads c).1

/-- Python `\s` on the character set relevant here (`re` whitespace). -/
def pyIsSpace (c : Char) : Bool :=
  c = ' ' ∨ c = '\t' ∨ c = '\n' ∨ c = '\r' ∨ c = '\x0b' ∨ c = '\x0c'

/-- `str.strip()` on a character list. -/
def stripChars (l : List Char) : List Char :=
  ((l.dropWhile pyIsSpace).reverse.dropWhile pyIsSpace).reverse

/-- The characters of the literal `name:` that anchors the extraction regex. -/
def nameKey : List Char := ['n', 'a', 'm', 'e', ':']

/-- Matching of `\s*(.+)$` against the text that follows `name:`, with the
backtracking semantics of `re` in MULTILINE mode: the greedy `\s*` takes the
longest whitespace run that still leaves a first non-newline character for
`(.+)`, which then runs to the end of that line.  Note that the whitespace
run may cross a newline, so the captured text can come from a later line. -/
def valueAfter (s : List Char) : Option (List Char) :=
  let ws := s.takeWhile pyIsSpace
  match s.drop ws.length with
  | c :: rest => some ((c :: rest).takeWhile (fun d => d ≠ '\n'))
  | [] =>
    match s.reverse.dropWhile (fun d => d = '\n') with
    | [] => none
    | c :: _ => some [c]

/-- Attempt the pattern `^name:\s*(.+)$` at one line-start position. -/
def tryHere (s : List Char) : Option (List Char) :=
  if nameKey.isPrefixOf s then valueAfter (s.drop nameKey.length) else none

/-- The suffixes of `s` that start right after each `'\n'`, in order: together
with `s` itself these are exactly the positions where `^` can match. -/
def lineSuffixAux : List Char → List (List Char)
  | [] => []
  | c :: rest =>
    if c = '\n' then rest :: lineSuffixAux rest else lineSuffixAux rest

/-- `re.search(r'^name:\s*(.+)$', s, re.MULTILINE)`: try every line-start
position from left to right and return the first captured group. -/
def scanLineStarts (s : List Char) : Option (List Char) :=
  (s :: lineSuffixAux s).findSome? tryHere

/-- `extract_semantic_view_name` (lines 748-761): regex search for a
`name: <value>` line, stripped capture on a match, `None` otherwise. -/
def extract_semantic_view_name (yaml_content : String) : Option String :=
  (scanLineStarts yaml_content.toList).map (fun g => String.mk (stripChars g))

/-- Observable outcome of the front part of `deploy_semantic_view`: the exit
status and whether a connection to the backend was opened. -/
structure DeployOutcome where
  exit : Nat
  connected : Bool
deriving DecidableEq, Repr

/-- `deploy_semantic_view` (lines 920-1034) up to the connection attempt: a
missing (or empty) extracted name is fatal before any connection; `dry_run`
returns after printing the SQL; otherwise the deployment connects. -/
def deploy_semantic_view_entry (yaml_content : String) (dry_run : Bool) :
    DeployOutcome :=
  match extract_semantic_view_name yaml_content with
  | none => ⟨1, false⟩
  | some nm =>
    if nm = "" then ⟨1, false⟩
    else if dry_run then ⟨0, false⟩
    else ⟨0, true⟩

/-- Character-level intercalation of lines with `'\n'`, used to state
theorems about documents with a known line structure. -/
def joinChars : List (List Char) → List Char
  | [] => []
  | [l] => l
  | l :: l' :: ls => l ++ '\n' :: joinChars (l' :: ls)

/-- Claim C1 counterexample: a reply whose current-shape `agent_spec` row
precedes the legacy-shape `create_body` row.  The scan inspects each row for
both shapes before moving on, so the earlier `agent_spec` row wins (value
`1`), not the legacy row (value `2`) — the claim's "the legacy row's parsed
value is returned regardless of which row appears first" is false. -/
theorem C1_counterexample :
    parse_create_body demoLoads
        [⟨none, none, some (.str "1")⟩,
         ⟨some "create_body", some (.str "2"), none⟩] =
      .ok (some (.num 1)) ∧
    parse_create_body demoLoads
        [⟨none, none, some (.str "1")⟩,
         ⟨some "create_body", some (.str "2"), none⟩] ≠
      .ok (some (.num 2)) := by
  refine ⟨rfl, fun h => ?_⟩
  rw [show parse_create_body demoLoads
        [⟨none, none, some (.str "1")⟩,
         ⟨some "create_body", some (.str "2"), none⟩] =
      .ok (some (.num 1)) from rfl] at h
  simp at h

/-- Claim C1 (amended): `parse_create_body` scans rows in order and checks
each row first for the legacy shape, then for `agent_spec`; the first row
that yields a result wins and scanning stops.  Consequently, when the legacy
row (non-empty string value that parses as JSON) comes before every returning
row, its parsed value is returned no matter what follows — in particular no
matter where an `agent_spec` row appears among the later rows. -/
theorem C1_legacy_first_match (loads : String → Option JVal)
    (pre rest : List Row) (row : Row) (s : String) (j : JVal)
    (hpre : ∀ r ∈ pre, rowStep loads r = none)
    (hprop : pyLower (row.property.getD "") = "create_body" ∨
      pyLower (row.property.getD "") = "definition")
    (hval : row.value = some (.str s)) (hs : s ≠ "") (hj : loads s = some j) :
    parse_create_body loads (pre ++ row :: rest) = .ok (some j) := by
  induction pre with
  | nil =>
    have hstep : rowStep loads row = some (.ok (some j)) := by
      simp only [rowStep, hval, Option.getD_some]
      rw [if_pos hprop]
      simp [JVal.truthy, hs, hj]
    simp [parse_create_body, hstep]
  | cons r pre ih =>
    have h1 : rowStep loads r = none := hpre r (by simp)
    have h2 := ih (fun x hx => hpre x (by simp [hx]))
    simpa [parse_create_body, h1] using h2

/-- Claim C1 witness: the amended scan-order property at a concrete reply in
which the legacy row comes first. -/
theorem C1_witness :
    parse_create_body demoLoads
        [⟨some "create_body", some (.str "2"), none⟩,
         ⟨none, none, some (.str "1")⟩] =
      .ok (some (.num 2)) :=
  C1_legacy_first_match demoLoads [] [⟨none, none, some (.str "1")⟩]
    ⟨some "create_body", some (.str "2"), none⟩ "2" (.num 2)
    (by intro r hr; cases hr) (Or.inl rfl) rfl (by decide) rfl

/-- Claim C2 counterexample: a malformed matched field makes
`parse_create_body` return `None` immediately; it does not keep scanning, so
a later well-formed matching row (which on its own would be found, second
conjunct) is ignored — the claim's "a later well-formed matching row would
still be found" is false. -/
theorem C2_counterexample :
    parse_create_body demoLoads
        [⟨some "create_body", some (.str "oops"), none⟩,
         ⟨some "definition", some (.str "2"), none⟩] = .ok none ∧
    parse_create_body demoLoads
        [⟨some "definition", some (.str "2"), none⟩] = .ok (some (.num 2)) :=
  ⟨rfl, rfl⟩

/-- Claim C2 (amended): when the first returning row of the reply matches a
field — the legacy `create_body`/`definition` shape, or the current
`agent_spec` shape (reached when the legacy check of that row does not
fire) — and that field holds a non-empty string that is not valid JSON, the
parse emits a warning and returns `None` immediately — no exception, but
also no further scanning.  The export path still succeeds: the artifact
carries the raw describe rows and a null `create_body`. -/
theorem C2_malformed_matched_field (loads : String → Option JVal)
    (pre rest : List Row) (row : Row) (s : String)
    (database schema agent_name user_name : String)
    (hpre : ∀ r ∈ pre, rowStep loads r = none)
    (hmatch :
      ((pyLower (row.property.getD "") = "create_body" ∨
          pyLower (row.property.getD "") = "definition") ∧
        row.value = some (.str s)) ∨
      ((pyLower (row.property.getD "") = "create_body" ∨
          pyLower (row.property.getD "") = "definition" →
        (row.value.getD (.str "")).truthy = false) ∧
        row.agent_spec = some (.str s)))
    (hs : s ≠ "") (hbad : loads s = none) :
    parse_create_body loads (pre ++ row :: rest) = .ok none ∧
    export_agent_result loads database schema agent_name user_name
        (.ok (pre ++ row :: rest)) =
      .written ⟨database, schema, agent_name, user_name, "0.3.0",
        pre ++ row :: rest, none⟩ := by
  have hstep : rowStep loads row = some (.ok none) := by
    rcases hmatch with ⟨hprop, hval⟩ | ⟨hno, hspec⟩
    · simp only [rowStep, hval, Option.getD_some]
      rw [if_pos hprop]
      simp [JVal.truthy, hs, hbad]
    · have hagent : agentSpecCheck loads row = some (.ok none) := by
        simp [agentSpecCheck, hspec, JVal.truthy, hs, hbad]
      by_cases hp : pyLower (row.property.getD "") = "create_body" ∨
          pyLower (row.property.getD "") = "definition"
      · have hfalsy := hno hp
        simp only [rowStep]
        rw [if_pos hp, if_neg (by simp [hfalsy])]
        exact hagent
      · simp only [rowStep]
        rw [if_neg hp]
        exact hagent
  have hparse : parse_create_body loads (pre ++ row :: rest) = .ok none := by
    induction pre with
    | nil => simp [parse_create_body, hstep]
    | cons r pre ih =>
      have h1 : rowStep loads r = none := hpre r (by simp)
      have h2 := ih (fun x hx => hpre x (by simp [hx]))
      simpa [parse_create_body, h1] using h2
  refine ⟨hparse, ?_⟩
  simp [export_agent_result, buildExportData, hparse]

/-- Claim C2 witness: the amended property at a concrete reply whose first
row is a malformed legacy row (with export-still-succeeds), and at one whose
first row is a malformed current-shape `agent_spec` row. -/
theorem C2_witness :
    (parse_create_body demoLoads
        [⟨some "create_body", some (.str "oops"), none⟩,
         ⟨some "definition", some (.str "2"), none⟩] = .ok none ∧
      export_agent_result demoLoads "DB" "SC" "AG" "usr"
          (.ok [⟨some "create_body", some (.str "oops"), none⟩,
                ⟨some "definition", some (.str "2"), none⟩]) =
        .written ⟨"DB", "SC", "AG", "usr", "0.3.0",
          [⟨some "create_body", some (.str "oops"), none⟩,
           ⟨some "definition", some (.str "2"), none⟩], none⟩) ∧
    parse_create_body demoLoads
        [⟨none, none, some (.str "oops")⟩,
         ⟨none, none, some (.str "1")⟩] = .ok none :=
  ⟨C2_malformed_matched_field demoLoads []
      [⟨some "definition", some (.str "2"), none⟩]
      ⟨some "create_body", some (.str "oops"), none⟩ "oops" "DB" "SC" "AG"
      "usr" (by intro r hr; cases hr) (Or.inl ⟨Or.inl rfl, rfl⟩) (by decide)
      rfl,
   (C2_malformed_matched_field demoLoads []
      [⟨none, none, some (.str "1")⟩]
      ⟨none, none, some (.str "oops")⟩ "oops" "DB" "SC" "AG" "usr"
      (by intro r hr; cases hr) (Or.inr ⟨by decide, rfl⟩) (by decide)
      rfl).1⟩

/-- Claim C3: an export artifact (a document with both a `metadata` block and
a `create_body` key) whose `create_body` is null makes the import exit
non-zero with the descriptive `ValueError` message, before any REST call is
issued. -/
theorem C3_null_body_rejected (loads : String → Option JVal) (config : Dict)
    (database schema agent_name : Option String) (dry_run replace : Bool)
    (host pat_token account : Option String) (env : RestEnv)
    (role : Option String) (postResp putResp : HttpResp)
    (h1 : dictHas config "create_body" = true)
    (h2 : dictHas config "metadata" = true)
    (h3 : dictGet config "create_body" = some .null) :
    import_agent loads config database schema agent_name dry_run replace
        host pat_token account env role postResp putResp =
      ⟨1, [], [msgNullCreateBody]⟩ := by
  have hex : extract_create_body config database schema agent_name =
      .error (.valueError msgNullCreateBody) := by
    simp only [extract_create_body, h3]
    rw [if_pos ⟨h1, h2⟩]
    rfl
  simp [import_agent, hex]

/-- Claim C3 witness: a concrete artifact with a null `create_body`. -/
theorem C3_witness :
    import_agent demoLoads
        [("metadata", .obj [("database", .str "DB")]), ("create_body", .null)]
        none none none false false none (some "tok") (some "acct")
        ⟨none, none, none⟩ none ⟨200, ""⟩ ⟨200, ""⟩ =
      ⟨1, [], [msgNullCreateBody]⟩ :=
  C3_null_body_rejected demoLoads
    [("metadata", .obj [("database", .str "DB")]), ("create_body", .null)]
    none none none false false none (some "tok") (some "acct")
    ⟨none, none, none⟩ none ⟨200, ""⟩ ⟨200, ""⟩ rfl rfl rfl

/-- Claim C4: a creation POST answered with HTTP 409 while `replace=false` is
fatal — the import exits non-zero, prints the hint to pass `--replace`, and
the POST is the only network call ever issued. -/
theorem C4_conflict_without_replace (loads : String → Option JVal)
    (config : Dict) (database schema agent_name : Option String)
    (host pat_token account : Option String) (env : RestEnv)
    (role : Option String) (postResp putResp : HttpResp)
    (d sc nm : String) (body : Dict) (api : RestCfg)
    (hex : extract_create_body config database schema agent_name =
      .ok (d, sc, nm, .obj body))
    (hapi : get_rest_api_config host pat_token account env = .ok api)
    (hpost : postResp.status = 409) :
    import_agent loads config database schema agent_name false false
        host pat_token account env role postResp putResp =
      ⟨1,
       [Call.post
          ("https://" ++ normalizeHost api.host ++ "/api/v2/databases/" ++ d ++
            "/schemas/" ++ sc ++ "/agents")
          (if dictHas body "name" then body
           else dictInsert body "name" (.str nm))],
       [msgHintReplace]⟩ := by
  simp [import_agent, hex, hapi, create_agent_via_rest, raise_for_status, hpost]

/-- Body used by the concrete REST scenarios. -/
def demoBody : Dict := [("instructions", .str "hi")]

/-- A concrete export artifact wrapping `demoBody`. -/
def demoArtifact : Dict :=
  [("metadata", .obj [("database", .str "DB"), ("schema", .str "SC"),
     ("agent_name", .str "AG")]),
   ("create_body", .obj demoBody)]

/-- Claim C4 witness: the 409-without-replace behaviour at a concrete
artifact and configuration. -/
theorem C4_witness :
    import_agent demoLoads demoArtifact none none none false false
        none (some "tok") (some "acct") ⟨none, none, none⟩ none
        ⟨409, ""⟩ ⟨200, ""⟩ =
      ⟨1,
       [Call.post
          "https://acct.snowflakecomputing.com/api/v2/databases/DB/schemas/SC/agents"
          (dictInsert demoBody "name" (.str "AG"))],
       [msgHintReplace]⟩ :=
  C4_conflict_without_replace demoLoads demoArtifact none none none
    none (some "tok") (some "acct") ⟨none, none, none⟩ none
    ⟨409, ""⟩ ⟨200, ""⟩ "DB" "SC" "AG" demoBody
    ⟨"acct.snowflakecomputing.com", "tok"⟩ rfl rfl rfl

/-- Claim C5 evaluation at the failing input: with `replace=true` and a POST
answered 409, the retry PUT is the one additional call, and a PUT status of
204 — which is neither 200 nor 201 — is NOT propagated as a transport error:
`raise_for_status` only raises for statuses 400-599, so the import prints an
error line, then reports the agent as updated and exits 0 (first two
conjuncts).  A PUT status of 500 is propagated (third conjunct), matching
the claim only for error statuses. -/
theorem C5_code_evaluation :
    (import_agent demoLoads demoArtifact none none none false true
        none (some "tok") (some "acct") ⟨none, none, none⟩ none
        ⟨409, ""⟩ ⟨204, ""⟩).exit = 0 ∧
    (import_agent demoLoads demoArtifact none none none false true
        none (some "tok") (some "acct") ⟨none, none, none⟩ none
        ⟨409, ""⟩ ⟨204, ""⟩).calls =
      [Call.post
         "https://acct.snowflakecomputing.com/api/v2/databases/DB/schemas/SC/agents"
         (dictInsert demoBody "name" (.str "AG")),
       Call.put
         "https://acct.snowflakecomputing.com/api/v2/databases/DB/schemas/SC/agents/AG"
         demoBody] ∧
    (import_agent demoLoads demoArtifact none none none false true
        none (some "tok") (some "acct") ⟨none, none, none⟩ none
        ⟨409, ""⟩ ⟨500, ""⟩).exit = 1 :=
  ⟨rfl, rfl, rfl⟩

/-- Claim C10: `create_agent_via_rest` never changes the caller's
`create_body`: the agent name, when absent, is embedded only into the copied
POST payload, every PUT that is issued carries the caller's original body,
and after the call the caller's dictionary equals what it was before. -/
theorem C10_caller_body_unchanged (loads : String → Option JVal)
    (host token database schema agent_name : String) (create_body : Dict)
    (replace : Bool) (role : Option String) (postResp putResp : HttpResp) :
    (create_agent_via_rest loads host token database schema agent_name
        create_body replace role postResp putResp).callerBody = create_body ∧
    (∃ u rest,
      (create_agent_via_rest loads host token database schema agent_name
          create_body replace role postResp putResp).calls =
        Call.post u
          (if dictHas create_body "name" then create_body
           else dictInsert create_body "name" (.str agent_name)) :: rest) ∧
    (∀ u p,
      Call.put u p ∈
        (create_agent_via_rest loads host token database schema agent_name
          create_body replace role postResp putResp).calls →
      p = create_body) := by
  by_cases h1 : postResp.status = 200 ∨ postResp.status = 201 <;>
    by_cases h2 : postResp.status = 409 ∧ replace <;>
    by_cases h3 : postResp.status = 409 <;>
    by_cases h4 : putResp.status = 200 ∨ putResp.status = 201 <;>
    cases hr1 : raise_for_status postResp <;>
    cases hr2 : raise_for_status putResp <;>
    simp_all [create_agent_via_rest]

/-- Claim C10 witness: the frame property at a concrete 409-then-PUT
scenario. -/
theorem C10_witness :
    (create_agent_via_rest demoLoads "H" "T" "D" "S" "A" demoBody true none
        ⟨409, ""⟩ ⟨200, ""⟩).callerBody = demoBody :=
  (C10_caller_body_unchanged demoLoads "H" "T" "D" "S" "A" demoBody true none
    ⟨409, ""⟩ ⟨200, ""⟩).1

/-- For Boolean predicates the two complementary counts sum to the length. -/
theorem countP_add_countP_not (p : AgentCase → Bool) (l : List AgentCase) :
    l.countP p + l.countP (fun a => !p a) = l.length := by
  induction l with
  | nil => rfl
  | cons a l ih =>
    cases h : p a <;> simp [List.countP_cons, h, ← ih] <;> omega

/-- The loop of `export_all_agents` in closed form: the tally counts the
successful and failing iterations and the files on disk are the per-case file
events in processing order. -/
theorem export_all_loop_spec (loads : String → Option JVal)
    (cases : List AgentCase) :
    export_all_loop loads cases =
      (⟨cases.countP (fun c => (runCase loads c).1),
        cases.countP (fun c => !(runCase loads c).1)⟩,
       cases.filterMap (fun c => (runCase loads c).2)) := by
  induction cases with
  | nil => rfl
  | cons c rest ih =>
    cases hb : (runCase loads c).1 <;> cases hf : (runCase loads c).2 <;>
      simp [export_all_loop, ih, List.countP_cons, hb, hf, Nat.add_comm]

/-- Claim C6 counterexample: one discovered agent whose describe succeeds but
whose artifact write raises inside `json.dump`.  The tally duly reports
`success_count = 0`, `error_count = 1`, but `open(.., "w")` already created
the output file, so the failed agent's file is present (incomplete) — the
claim's "the K failed ones are absent" is false for write-time failures. -/
theorem C6_counterexample :
    (export_all_loop demoLoads
        [⟨"DB", "SC", "AG",
          .rows [⟨some "create_body", some (.str "2"), none⟩], .dumpFail⟩]).1 =
      ⟨0, 1⟩ ∧
    "DB.SC.AG.json" ∈
      (export_all_loop demoLoads
        [⟨"DB", "SC", "AG",
          .rows [⟨some "create_body", some (.str "2"), none⟩],
          .dumpFail⟩]).2.map Prod.fst :=
  ⟨rfl, List.Mem.head _⟩

/-- Claim C6 (amended): over N discovered coordinates of which exactly K fail
inside the per-agent try-block (describe raising, the parse raising, or the
artifact write failing) and none return an empty reply, the batch never
aborts: `success_count = N-K`, `error_count = K`, and the two counts sum to
N.  The files on disk are exactly the per-case file events: every successful
agent leaves a complete artifact, an agent failing before its file is opened
leaves no file, but an agent whose failure strikes during `json.dump` leaves
an incomplete file behind. -/
theorem C6_batch_tally (loads : String → Option JVal) (cases : List AgentCase)
    (_hne : ∀ c ∈ cases, ∀ rs, c.describe = DescribeRes.rows rs → rs ≠ []) :
    (export_all_loop loads cases).1.success_count =
      cases.length - cases.countP (caseFails loads) ∧
    (export_all_loop loads cases).1.error_count =
      cases.countP (caseFails loads) ∧
    (export_all_loop loads cases).1.success_count +
      (export_all_loop loads cases).1.error_count = cases.length ∧
    (export_all_loop loads cases).2 =
      cases.filterMap (fun c => (runCase loads c).2) ∧
    (∀ c ∈ cases, (runCase loads c).1 = true →
      (runCase loads c).2 = some (caseFileName c, FileState.complete)) ∧
    (∀ c ∈ cases, caseFails loads c = true →
      (runCase loads c).2 = none ∨
      (runCase loads c).2 = some (caseFileName c, FileState.incomplete)) := by
  have hspec := export_all_loop_spec loads cases
  have hsum := countP_add_countP_not (fun c => (runCase loads c).1) cases
  have hK : cases.countP (caseFails loads) =
      cases.countP (fun c => !(runCase loads c).1) := rfl
  refine ⟨?_, ?_, ?_, ?_, ?_, ?_⟩
  · simp [hspec, hK]; omega
  · simp [hspec, hK]
  · simp [hspec]; omega
  · simp [hspec]
  · intro c _ h
    rcases c with ⟨db, sc, ag, de, wr⟩
    cases de with
    | raise => simp [runCase] at h
    | rows rs =>
      cases hrs : rs.isEmpty with
      | true => simp [runCase, hrs] at h
      | false =>
        cases hp : parse_create_body loads rs with
        | error e => simp [runCase, hrs, hp] at h
        | ok cb => cases wr <;> simp [runCase, hrs, hp, caseFileName] at h ⊢
  · intro c _ h
    rcases c with ⟨db, sc, ag, de, wr⟩
    cases de with
    | raise => left; simp [runCase]
    | rows rs =>
      cases hrs : rs.isEmpty with
      | true => left; simp [runCase, hrs]
      | false =>
        cases hp : parse_create_body loads rs with
        | error e => left; simp [runCase, hrs, hp]
        | ok cb =>
          cases wr with
          | openFail => left; simp [runCase, hrs, hp]
          | dumpFail => right; simp [runCase, hrs, hp, caseFileName]
          | ok => simp [caseFails, runCase, hrs, hp] at h

/-- Claim C6 witness: one succeeding agent, one whose describe raises. -/
theorem C6_witness :
    (export_all_loop demoLoads
        [⟨"D1", "S1", "A1",
          .rows [⟨some "create_body", some (.str "2"), none⟩], .ok⟩,
         ⟨"D2", "S2", "A2", .raise, .ok⟩]).1.success_count = 1 ∧
    (export_all_loop demoLoads
        [⟨"D1", "S1", "A1",
          .rows [⟨some "create_body", some (.str "2"), none⟩], .ok⟩,
         ⟨"D2", "S2", "A2", .raise, .ok⟩]).1.error_count = 1 := by
  have h := C6_batch_tally demoLoads
    [⟨"D1", "S1", "A1",
       .rows [⟨some "create_body", some (.str "2"), none⟩], .ok⟩,
     ⟨"D2", "S2", "A2", .raise, .ok⟩]
    (by
      intro c hc rs hrs
      simp only [List.mem_cons, List.not_mem_nil, or_false] at hc
      rcases hc with rfl | rfl
      · injection hrs with h2
        subst h2
        simp
      · simp at hrs)
  exact ⟨by rw [h.1]; rfl, by rw [h.2.1]; rfl⟩

/-- Truthiness of a present optional string, in equation form. -/
theorem truthyStr_some (s : String) : truthyStr (some s) = !decide (s = "") := by
  rw [show truthyStr (some s) = decide (s ≠ "") from rfl, decide_not]

/-- A truthy first operand wins in Python `or`. -/
theorem pyOrStr_arg (s : String) (b : Option String) (h : s ≠ "") :
    pyOrStr (some s) b = some s := by simp [pyOrStr, h]

/-- A falsy first operand defers to the second in Python `or`. -/
theorem pyOrStr_env (a b : Option String) (h : truthyStr a = false) :
    pyOrStr a b = b := by
  cases a with
  | none => rfl
  | some s => simp_all [pyOrStr, truthyStr]

/-- Number of positions of `l` at which `pat` occurs. -/
def countOccs (pat : List Char) : List Char → Nat
  | [] => 0
  | c :: rest =>
    (if pat.isPrefixOf (c :: rest) then 1 else 0) + countOccs pat rest

/-- Claim C8: when no host is given (argument or environment) but an account
identifier is available, the derived REST host is the account identifier with
`.snowflakecomputing.com` appended and then normalized (lowercase,
underscores to hyphens); and whenever no bearer token is available the
construction fails with a configuration error. -/
theorem C8_host_derivation (host token account : Option String)
    (env : RestEnv) :
    (∀ a t, truthyStr (pyOrStr host env.host) = false →
      pyOrStr account env.account = some a → a ≠ "" →
      pyOrStr token env.token = some t → t ≠ "" →
      get_rest_api_config host token account env =
        .ok ⟨normalizeHost (a ++ ".snowflakecomputing.com"), t⟩) ∧
    (truthyStr (pyOrStr token env.token) = false →
      ∃ m, get_rest_api_config host token account env =
        .error (.valueError m)) := by
  constructor
  · intro a t hh ha ha' ht ht'
    simp [get_rest_api_config, hh, ha, ht, truthyStr_some, ha', ht']
  · intro ht
    by_cases hh : truthyStr (pyOrStr host env.host) = true
    · exact ⟨msgPatToken, by simp [get_rest_api_config, hh, ht]⟩
    · by_cases ha : truthyStr (pyOrStr account env.account) = true
      · exact ⟨msgPatToken, by
          simp only [Bool.not_eq_true] at hh
          simp [get_rest_api_config, hh, ha, ht]⟩
      · exact ⟨msgHostOrAccount, by
          simp only [Bool.not_eq_true] at hh ha
          simp [get_rest_api_config, hh, ha, ht]⟩

/-- Claim C8 witness: the spec's own example — account `MyOrg_Cloud` derives
host `myorg-cloud.snowflakecomputing.com` — and a token-less configuration
that fails. -/
theorem C8_witness :
    get_rest_api_config none (some "tok") (some "MyOrg_Cloud")
        ⟨none, none, none⟩ =
      .ok ⟨"myorg-cloud.snowflakecomputing.com", "tok"⟩ ∧
    ∃ m, get_rest_api_config none none (some "MyOrg_Cloud") ⟨none, none, none⟩ =
      .error (.valueError m) :=
  ⟨(C8_host_derivation none (some "tok") (some "MyOrg_Cloud")
      ⟨none, none, none⟩).1 "MyOrg_Cloud" "tok" rfl rfl (by decide) rfl
      (by decide),
   (C8_host_derivation none none (some "MyOrg_Cloud") ⟨none, none, none⟩).2
      rfl⟩

/-- With account and user available and a resolved password, the connection
parameters carry password authentication. -/
theorem conn_password_auth
    (account user password warehouse role private_key_path : Option String)
    (env : SqlEnv) (pw : String)
    (hacc : truthyStr (pyOrStr account env.account) = true)
    (husr : truthyStr (pyOrStr user env.user) = true)
    (hres : pyOrStr password env.password = some pw) (hpw : pw ≠ "") :
    get_snowflake_connection account user password warehouse role
        private_key_path env =
      .ok ⟨(pyOrStr account env.account).getD "",
        (pyOrStr user env.user).getD "",
        (pyOrStr role (some (env.role.getD "ACCOUNTADMIN"))).getD "",
        (if truthyStr (pyOrStr warehouse env.warehouse) then
          pyOrStr warehouse env.warehouse else none),
        .password pw⟩ := by
  simp [get_snowflake_connection, hacc, husr, hres, truthyStr_some, hpw]

/-- With account and user available, no resolved password, and a resolved
private-key path, the connection parameters carry key-pair authentication
with the environment passphrase. -/
theorem conn_keypair_auth
    (account user password warehouse role private_key_path : Option String)
    (env : SqlEnv) (kp : String)
    (hacc : truthyStr (pyOrStr account env.account) = true)
    (husr : truthyStr (pyOrStr user env.user) = true)
    (hpwf : truthyStr (pyOrStr password env.password) = false)
    (hres : pyOrStr private_key_path env.private_key_path = some kp)
    (hkp : kp ≠ "") :
    get_snowflake_connection account user password warehouse role
        private_key_path env =
      .ok ⟨(pyOrStr account env.account).getD "",
        (pyOrStr user env.user).getD "",
        (pyOrStr role (some (env.role.getD "ACCOUNTADMIN"))).getD "",
        (if truthyStr (pyOrStr warehouse env.warehouse) then
          pyOrStr warehouse env.warehouse else none),
        .keyPair kp
          (if truthyStr env.passphrase then env.passphrase else none)⟩ := by
  simp [get_snowflake_connection, hacc, husr, hpwf, hres, truthyStr_some, hkp]

set_option maxRecDepth 8192 in
/-- Claim C9: the query transport accepts the password credential or the
key-pair credential, each resolved argument-first-then-environment (the
passphrase comes from the environment and is optional); with account and user
present but neither credential available, construction fails before any
connection attempt with the configuration error that names both options
(final conjunct: the message mentions `--password`, `SNOWFLAKE_PASSWORD`,
`--private-key-path` and `SNOWFLAKE_PRIVATE_KEY_PATH` exactly once each).
When both credential forms are present the password wins, so exactly one is
used. -/
theorem C9_credential_resolution
    (account user password warehouse role private_key_path : Option String)
    (env : SqlEnv) :
    (truthyStr (pyOrStr account env.account) = true →
      truthyStr (pyOrStr user env.user) = true →
      truthyStr (pyOrStr password env.password) = false →
      truthyStr (pyOrStr private_key_path env.private_key_path) = false →
      get_snowflake_connection account user password warehouse role
          private_key_path env =
        .error (.valueError msgAuthNotConfigured)) ∧
    (∀ pw, password = some pw → pw ≠ "" →
      truthyStr (pyOrStr account env.account) = true →
      truthyStr (pyOrStr user env.user) = true →
      ∃ p, get_snowflake_connection account user password warehouse role
          private_key_path env = .ok p ∧ p.auth = .password pw) ∧
    (∀ pw, truthyStr password = false → env.password = some pw → pw ≠ "" →
      truthyStr (pyOrStr account env.account) = true →
      truthyStr (pyOrStr user env.user) = true →
      ∃ p, get_snowflake_connection account user password warehouse role
          private_key_path env = .ok p ∧ p.auth = .password pw) ∧
    (∀ kp, truthyStr (pyOrStr password env.password) = false →
      private_key_path = some kp → kp ≠ "" →
      truthyStr (pyOrStr account env.account) = true →
      truthyStr (pyOrStr user env.user) = true →
      ∃ p, get_snowflake_connection account user password warehouse role
          private_key_path env = .ok p ∧
        p.auth = .keyPair kp
          (if truthyStr env.passphrase then env.passphrase else none)) ∧
    (∀ kp, truthyStr (pyOrStr password env.password) = false →
      truthyStr private_key_path = false → env.private_key_path = some kp →
      kp ≠ "" →
      truthyStr (pyOrStr account env.account) = true →
      truthyStr (pyOrStr user env.user) = true →
      ∃ p, get_snowflake_connection account user password warehouse role
          private_key_path env = .ok p ∧
        p.auth = .keyPair kp
          (if truthyStr env.passphrase then env.passphrase else none)) ∧
    (countOccs "--password".toList msgAuthNotConfigured.toList = 1 ∧
      countOccs "SNOWFLAKE_PASSWORD".toList msgAuthNotConfigured.toList = 1 ∧
      countOccs "--private-key-path".toList msgAuthNotConfigured.toList = 1 ∧
      countOccs "SNOWFLAKE_PRIVATE_KEY_PATH".toList
        msgAuthNotConfigured.toList = 1) := by
  refine ⟨?_, ?_, ?_, ?_, ?_, by decide, by decide, by decide, by decide⟩
  · intro hacc husr hpw hkp
    simp [get_snowflake_connection, hacc, husr, hpw, hkp]
  · intro pw hp hp' hacc husr
    have hres : pyOrStr password env.password = some pw := by
      rw [hp]; exact pyOrStr_arg pw env.password hp'
    exact ⟨_, conn_password_auth account user password warehouse role
      private_key_path env pw hacc husr hres hp', rfl⟩
  · intro pw hargpw henv hp' hacc husr
    have hres : pyOrStr password env.password = some pw := by
      rw [pyOrStr_env password env.password hargpw]; exact henv
    exact ⟨_, conn_password_auth account user password warehouse role
      private_key_path env pw hacc husr hres hp', rfl⟩
  · intro kp hpwf hk hk' hacc husr
    have hres : pyOrStr private_key_path env.private_key_path = some kp := by
      rw [hk]; exact pyOrStr_arg kp env.private_key_path hk'
    exact ⟨_, conn_keypair_auth account user password warehouse role
      private_key_path env kp hacc husr hpwf hres hk', rfl⟩
  · intro kp hpwf hargkp henv hk' hacc husr
    have hres : pyOrStr private_key_path env.private_key_path = some kp := by
      rw [pyOrStr_env private_key_path env.private_key_path hargkp]
      exact henv
    exact ⟨_, conn_keypair_auth account user password warehouse role
      private_key_path env kp hacc husr hpwf hres hk', rfl⟩

/-- Claim C9 witness: account and user present, no credential in any source —
the construction fails with the message naming both options. -/
theorem C9_witness :
    get_snowflake_connection (some "acct") (some "usr") none none none none
        ⟨none, none, none, none, none, none, none⟩ =
      .error (.valueError msgAuthNotConfigured) :=
  (C9_credential_resolution (some "acct") (some "usr") none none none none
    ⟨none, none, none, none, none, none, none⟩).1 rfl rfl rfl rfl

/-- Dropping the matched whitespace run is the same as `dropWhile`. -/
theorem drop_takeWhile_length (p : Char → Bool) (l : List Char) :
    l.drop (l.takeWhile p).length = l.dropWhile p := by
  induction l with
  | nil => rfl
  | cons a l ih =>
    cases hp : p a <;>
      simp [List.takeWhile_cons, List.dropWhile_cons, hp, ih]

/-- `dropWhile` is idempotent. -/
theorem dropWhile_idem (p : Char → Bool) (l : List Char) :
    (l.dropWhile p).dropWhile p = l.dropWhile p := by
  induction l with
  | nil => rfl
  | cons a l ih => cases hp : p a <;> simp [List.dropWhile_cons, hp, ih]

/-- A list with a witness falsifying `p` survives `dropWhile p`. -/
theorem dropWhile_ne_nil_of_exists (p : Char → Bool) (l : List Char)
    (h : ∃ c ∈ l, p c = false) : l.dropWhile p ≠ [] := by
  induction l with
  | nil => simp at h
  | cons a l ih =>
    cases hp : p a with
    | false => simp [List.dropWhile_cons, hp]
    | true =>
      obtain ⟨c, hc, hcp⟩ := h
      rcases List.mem_cons.mp hc with rfl | hc'
      · rw [hp] at hcp; cases hcp
      · simp only [List.dropWhile_cons, hp, if_true, reduceIte]
        exact ih ⟨c, hc', hcp⟩

/-- Matching `\s*(.+)$` after `name:` on a line whose remaining text `v`
holds a non-whitespace character and no newline, followed either by nothing
or by a newline and the rest of the document: the captured group is `v`
without its leading whitespace. -/
theorem valueAfter_target (v sep : List Char)
    (hsep : sep = [] ∨ ∃ t, sep = '\n' :: t)
    (hv : v.dropWhile pyIsSpace ≠ [])
    (hnnl : ∀ c ∈ v, c ≠ '\n') :
    valueAfter (v ++ sep) = some (v.dropWhile pyIsSpace) := by
  have hdrop : (v ++ sep).drop ((v ++ sep).takeWhile pyIsSpace).length =
      v.dropWhile pyIsSpace ++ sep := by
    rw [drop_takeWhile_length, List.dropWhile_append, if_neg (by simp [hv])]
  obtain ⟨c, r, hcr⟩ : ∃ c r, v.dropWhile pyIsSpace = c :: r := by
    cases h : v.dropWhile pyIsSpace with
    | nil => exact absurd h hv
    | cons c r => exact ⟨c, r, rfl⟩
  have hall : ∀ x ∈ (c :: r), (fun d => decide (d ≠ '\n')) x = true := by
    intro x hx
    have hxv : x ∈ v := List.dropWhile_subset pyIsSpace (hcr ▸ hx)
    simp [hnnl x hxv]
  simp only [valueAfter, hdrop, hcr, List.cons_append]
  rw [show (c :: (r ++ sep)) = (c :: r) ++ sep from rfl,
    List.takeWhile_append_of_pos hall]
  rcases hsep with rfl | ⟨t, rfl⟩ <;> simp [List.takeWhile_cons]

/-- `^name:\s*(.+)$` succeeds at the start of the `name:` line and captures
the value. -/
theorem tryHere_target (v sep : List Char)
    (hsep : sep = [] ∨ ∃ t, sep = '\n' :: t)
    (hv : v.dropWhile pyIsSpace ≠ [])
    (hnnl : ∀ c ∈ v, c ≠ '\n') :
    tryHere (nameKey ++ (v ++ sep)) = some (v.dropWhile pyIsSpace) := by
  have hpre : nameKey.isPrefixOf (nameKey ++ (v ++ sep)) = true := by
    rw [List.isPrefixOf_iff_prefix]
    exact List.prefix_append _ _
  simp only [tryHere, hpre, if_true, reduceIte, List.drop_left]
  exact valueAfter_target v sep hsep hv hnnl

/-- A newline-free pattern that is not a prefix of a line is not a prefix of
that line extended past its newline either. -/
theorem isPrefixOf_break (key : List Char) (l t : List Char)
    (hk : ∀ c ∈ key, c ≠ '\n') (h : key.isPrefixOf l = false) :
    key.isPrefixOf (l ++ '\n' :: t) = false := by
  induction key generalizing l with
  | nil => simp [List.isPrefixOf] at h
  | cons k ks ih =>
    cases l with
    | nil =>
      have hkn : k ≠ '\n' := hk k (by simp)
      simp [List.isPrefixOf, hkn]
    | cons a l' =>
      cases hka : k == a with
      | false => simp [List.isPrefixOf, hka]
      | true =>
        simp only [List.isPrefixOf, hka, Bool.true_and] at h ⊢
        exact ih l' (fun c hc => hk c (List.mem_cons_of_mem _ hc)) h

/-- The search does not fire at the start of a line that does not begin with
`name:`. -/
theorem tryHere_skip (l t : List Char) (h : nameKey.isPrefixOf l = false) :
    tryHere (l ++ '\n' :: t) = none := by
  simp only [tryHere,
    isPrefixOf_break nameKey l t (by decide) h, Bool.false_eq_true,
    if_false, reduceIte]

/-- A newline-free prefix adds no line-start positions. -/
theorem lineSuffixAux_append (l s : List Char) (h : ∀ c ∈ l, c ≠ '\n') :
    lineSuffixAux (l ++ s) = lineSuffixAux s := by
  induction l with
  | nil => rfl
  | cons a l ih =>
    have ha : a ≠ '\n' := h a (by simp)
    simp [lineSuffixAux, ha, ih (fun c hc => h c (by simp [hc]))]

/-- Unfolding of `joinChars` on a cons with a nonempty tail. -/
theorem joinChars_cons (l : List Char) (L : List (List Char)) (h : L ≠ []) :
    joinChars (l :: L) = l ++ '\n' :: joinChars L := by
  cases L with
  | nil => exact absurd rfl h
  | cons x xs => rfl

/-- The regex search over a document whose lines before the `name:` line
neither begin with `name:` nor contain a newline finds the `name:` line and
captures its value (leading whitespace dropped). -/
theorem scanLineStarts_join (pre : List (List Char)) (v : List Char)
    (rest : List (List Char))
    (hpre1 : ∀ l ∈ pre, nameKey.isPrefixOf l = false)
    (hpre2 : ∀ l ∈ pre, ∀ c ∈ l, c ≠ '\n')
    (hv : v.dropWhile pyIsSpace ≠ [])
    (hnnl : ∀ c ∈ v, c ≠ '\n') :
    scanLineStarts (joinChars (pre ++ (nameKey ++ v) :: rest)) =
      some (v.dropWhile pyIsSpace) := by
  induction pre with
  | nil =>
    cases rest with
    | nil =>
      have h1 := tryHere_target v [] (Or.inl rfl) hv hnnl
      rw [List.append_nil] at h1
      simp [joinChars, scanLineStarts, List.findSome?_cons, h1]
    | cons r rs =>
      rw [List.nil_append,
        joinChars_cons (nameKey ++ v) (r :: rs) (by simp),
        List.append_assoc]
      have h1 := tryHere_target v ('\n' :: joinChars (r :: rs))
        (Or.inr ⟨_, rfl⟩) hv hnnl
      simp [scanLineStarts, List.findSome?_cons, h1]
  | cons l pre ih =>
    rw [show (l :: pre) ++ (nameKey ++ v) :: rest =
      l :: (pre ++ (nameKey ++ v) :: rest) from rfl,
      joinChars_cons l _ (by simp)]
    have h0 : tryHere (l ++ '\n' :: joinChars (pre ++ (nameKey ++ v) :: rest)) =
        none :=
      tryHere_skip l _ (hpre1 l (by simp))
    have h2 : lineSuffixAux
        (l ++ '\n' :: joinChars (pre ++ (nameKey ++ v) :: rest)) =
        joinChars (pre ++ (nameKey ++ v) :: rest) ::
          lineSuffixAux (joinChars (pre ++ (nameKey ++ v) :: rest)) := by
      rw [lineSuffixAux_append l _ (hpre2 l (by simp))]
      simp [lineSuffixAux]
    have h3 := ih (fun x hx => hpre1 x (by simp [hx]))
      (fun x hx => hpre2 x (by simp [hx]))
    simp only [scanLineStarts, List.findSome?_cons, h0, h2] at h3 ⊢
    exact h3

/-- Claim C7 counterexample: the document consists of the lines `name:`,
`junk`, `name: Foo` and an empty line (first conjunct shows the exact line
structure), so it contains a `name: <value>` line whose value is `Foo`; yet
the extraction returns `junk`: the regex `^name:\s*(.+)$` matches at the bare
`name:` line because the greedy `\s*` crosses the newline, capturing the next
line.  The claim's "the extracted name is exactly <value>" is false. -/
theorem C7_counterexample :
    "name:\njunk\nname: Foo\n".toList =
      joinChars ["name:".toList, "junk".toList, "name: Foo".toList,
        "".toList] ∧
    extract_semantic_view_name "name:\njunk\nname: Foo\n" = some "junk" ∧
    ("junk" : String) ≠ "Foo" :=
  ⟨by decide, by decide, by decide⟩

/-- Claim C7 (amended): if the first line of the document that begins with
`name:` carries, on the same line, a value with at least one non-whitespace
character, the extracted name is exactly that value trimmed (so a document
whose `name:` line reads `name: Foo Bar` yields `Foo Bar`); a bare `name:`
line, however, can capture text from a later line.  And whenever extraction
yields no usable name (no match, or an empty string after trimming),
deployment exits non-zero before any network connection is opened. -/
theorem C7_name_extraction (doc : String) (pre rest : List (List Char))
    (v : List Char)
    (hdoc : doc.toList = joinChars (pre ++ (nameKey ++ v) :: rest))
    (hpre1 : ∀ l ∈ pre, nameKey.isPrefixOf l = false)
    (hpre2 : ∀ l ∈ pre, ∀ c ∈ l, c ≠ '\n')
    (hv : ∃ c ∈ v, pyIsSpace c = false)
    (hnnl : ∀ c ∈ v, c ≠ '\n') :
    extract_semantic_view_name doc = some (String.mk (stripChars v)) ∧
    (∀ (doc' : String) (dry : Bool),
      truthyStr (extract_semantic_view_name doc') = false →
      deploy_semantic_view_entry doc' dry = ⟨1, false⟩) := by
  constructor
  · have hv' : v.dropWhile pyIsSpace ≠ [] :=
      dropWhile_ne_nil_of_exists pyIsSpace v hv
    have hscan := scanLineStarts_join pre v rest hpre1 hpre2 hv' hnnl
    have hstrip : stripChars (v.dropWhile pyIsSpace) = stripChars v := by
      simp [stripChars, dropWhile_idem]
    simp only [extract_semantic_view_name, hdoc, hscan]
    simp [hstrip]
  · intro doc' dry hfalsy
    cases hx : extract_semantic_view_name doc' with
    | none => simp only [deploy_semantic_view_entry, hx]
    | some nm =>
      rw [hx, truthyStr_some] at hfalsy
      simp at hfalsy
      simp [deploy_semantic_view_entry, hx, hfalsy]

/-- Claim C7 witness: a document whose first `name:` line is
`name: Foo Bar`, and a document with no `name:` line at all. -/
theorem C7_witness :
    extract_semantic_view_name "title: x\nname: Foo Bar\nrest" =
      some "Foo Bar" ∧
    deploy_semantic_view_entry "no name line" false = ⟨1, false⟩ := by
  constructor
  · have h := (C7_name_extraction "title: x\nname: Foo Bar\nrest"
      ["title: x".toList] ["rest".toList] (" Foo Bar".toList)
      (by decide) (by decide) (by decide) (by decide) (by decide)).1
    exact h.trans (by decide)
  · exact (C7_name_extraction "title: x\nname: Foo Bar\nrest"
      ["title: x".toList] ["rest".toList] (" Foo Bar".toList)
      (by decide) (by decide) (by decide) (by decide) (by decide)).2
      "no name line" false (by decide)

end SfAgentOps
